import Mathlib

/-!
Verification development for the smart-fridge-ai repository.

The repository's reconciliation core lives in three Python files:
  scanner.py     — receipt ingestion (find_best_match, save_to_db)
  chef_agent.py  — consumption (consume_recipe_items), intent classification
                   (_classify_user_intent), CLI conversation loop (run_chef_agent)
  api_server.py  — HTTP endpoints (confirm_recipe, revise_recipe) sharing the
                   chef_agent helpers

This file shallowly embeds those functions in Lean and proves or refutes the
frozen specification claims about them.  Modelling conventions:
  * Python strings are `List Char`; Python `str` comparison is codepoint
    lexicographic, exactly `Char` order here.
  * ISO "YYYY-MM-DD" date strings are modelled by their day ordinal (`Int`):
    lexicographic order on well-formed ISO strings coincides with ordinal
    order, equality with equality, and `datetime + timedelta(days=k)`
    with `+ k`.
  * Python floats are modelled by `ℚ`.  Every concrete comparison used in a
    theorem below involves small dyadic/decimal rationals for which the
    float computation in CPython and the exact rational computation agree
    (e.g. `2*4/10 >= 0.8` holds both as floats and as rationals).
  * difflib's `real_quick_ratio`/`quick_ratio` prefilters in
    `get_close_matches` are upper bounds of `ratio` and thus have no
    semantic effect; the embedding filters on `ratio` directly.
-/

set_option allowUnsafeReducibility true
set_option maxRecDepth 20000

/- Batteries marks the rational-number arithmetic `@[irreducible]`, which
blocks `decide`-style evaluation of the concrete runs below at elaboration
time; restoring the default transparency is purely an elaboration-side
setting — every proof is still checked by the kernel, which ignores
reducibility attributes. -/
attribute [semireducible] Rat.mul Rat.sub Rat.add Rat.div Rat.inv

namespace SmartFridge

/-- Python strings are modelled as lists of characters. -/
abbrev Str := List Char

/-! ## difflib.SequenceMatcher (stdlib, used by both scanner.py and
    chef_agent.py / api_server.py through `difflib.get_close_matches`) -/

/-- Length of the common run of equal characters at the heads of two lists
(the length of the matching block starting at a given pair of positions). -/
def runLen : Str → Str → Nat
  | x :: xs, y :: ys => if x = y then runLen xs ys + 1 else 0
  | _, _ => 0

/-- Keep the candidate block only when strictly longer than the current best:
iterating positions in ascending `(i, j)` order, this reproduces difflib's
documented tie-break (earliest start in `a`, then earliest start in `b`). -/
def pickBetter (best cand : Nat × Nat × Nat) : Nat × Nat × Nat :=
  if best.2.2 < cand.2.2 then cand else best

/-- difflib `SequenceMatcher.find_longest_match` on the window
`a[alo:ahi] × b[blo:bhi]` with no junk (strings are far below the autojunk
threshold): the longest matching block, ties broken toward the earliest
start in `a`, then the earliest start in `b`.  Returns `(i, j, size)`. -/
def findLongestMatch (a b : Str) (alo ahi blo bhi : Nat) : Nat × Nat × Nat :=
  (List.range (ahi - alo)).foldl
    (fun best di =>
      (List.range (bhi - blo)).foldl
        (fun best dj =>
          let i := alo + di
          let j := blo + dj
          let k := min (runLen (a.drop i) (b.drop j)) (min (ahi - i) (bhi - j))
          pickBetter best (i, j, k))
        best)
    (alo, blo, 0)

/-- Total size of all matching blocks (difflib `get_matching_blocks`
recursion, keeping only the sum of block sizes, which is all `ratio`
needs).  `fuel` dominates the total window size, which strictly shrinks. -/
def matchTotalAux (a b : Str) : Nat → Nat → Nat → Nat → Nat → Nat
  | _, _, _, _, 0 => 0
  | alo, ahi, blo, bhi, fuel + 1 =>
    let m := findLongestMatch a b alo ahi blo bhi
    if m.2.2 = 0 then 0
    else
      matchTotalAux a b alo m.1 blo m.2.1 fuel + m.2.2 +
        matchTotalAux a b (m.1 + m.2.2) ahi (m.2.1 + m.2.2) bhi fuel

/-- Total number of matched characters between `a` and `b`
(`sum(size for _, _, size in SequenceMatcher(None, a, b).get_matching_blocks())`). -/
def matchTotal (a b : Str) : Nat :=
  matchTotalAux a b 0 a.length 0 b.length (a.length + b.length)

/-- difflib `SequenceMatcher.ratio()`: `2*M/T` where `M` is the total size of
the matching blocks and `T = len(a) + len(b)`; 1 when both are empty. -/
def ratioQ (a b : Str) : ℚ :=
  if a.length + b.length = 0 then 1
  else (2 * (matchTotal a b : ℚ)) / ((a.length + b.length : Nat) : ℚ)

/-- Codepoint-lexicographic strict order on strings, as Python `<` on `str`. -/
def lexLt : Str → Str → Bool
  | [], [] => false
  | [], _ :: _ => true
  | _ :: _, [] => false
  | x :: xs, y :: ys => if x = y then lexLt xs ys else decide (x < y)

/-- Python substring test `needle in hay`. -/
def strContains (hay needle : Str) : Bool :=
  needle.isPrefixOf hay ||
    (match hay with
     | [] => false
     | _ :: t => strContains t needle)

/-- difflib `get_close_matches(word, possibilities, n=1, cutoff)`:
score every possibility `x` by `SequenceMatcher(a := x, b := word).ratio()`,
keep those with score ≥ cutoff, and return the maximum under the Python
tuple order `(score, x)` (ties on score go to the lexicographically larger
string, per `heapq.nlargest` comparing `(score, x)` pairs); `none` when no
possibility clears the cutoff. -/
def getCloseMatch1 (word : Str) (possibilities : List Str) (cutoff : ℚ) : Option Str :=
  let scored := possibilities.filterMap
    (fun x => let r := ratioQ x word
              if cutoff ≤ r then some (r, x) else none)
  (scored.foldl
    (fun best c =>
      match best with
      | none => some c
      | some b =>
        if b.1 < c.1 ∨ (b.1 = c.1 ∧ lexLt b.2 c.2 = true) then some c else some b)
    none).map (fun p => p.2)

/-! ## Small generic dictionary model (Python `dict` built by comprehension:
insertion order preserved, later duplicate keys overwrite in place) -/

/-- Insert with Python dict semantics: overwrite in place if the key exists,
else append. -/
def dictInsert {α : Type} (d : List (Str × α)) (k : Str) (v : α) : List (Str × α) :=
  if d.any (fun p => p.1 == k) then
    d.map (fun p => if p.1 == k then (k, v) else p)
  else d ++ [(k, v)]

/-- Build a dict from a list, keying each element by `key`
(`{key(it): it for it in items}`). -/
def buildDict {α : Type} (key : α → Str) (items : List α) : List (Str × α) :=
  items.foldl (fun d it => dictInsert d (key it) it) []

/-- Python `d.get(k)` / `d[k]`. -/
def dictGet {α : Type} (d : List (Str × α)) (k : Str) : Option α :=
  (d.find? (fun p => p.1 == k)).map (fun p => p.2)

/-- Python `list(d.keys())`. -/
def dictKeys {α : Type} (d : List (Str × α)) : List Str :=
  d.map (fun p => p.1)

/-! ## scanner.py — ingestion reconciler -/

/-- Active inventory row as fetched by scanner.get_active_items
(`select=id,item_name,purchase_date`, `status=eq.active`).  `purchase_date`
is the ISO date string, modelled by its day ordinal. -/
structure ActiveItem where
  id : Nat
  item_name : Str
  purchase_date : Int
  deriving DecidableEq

/-- Candidate item parsed from the recognition response
(`item_name`, `category`, `quantity`, `estimated_expiry_days`); the expiry
field is read with `item.get("estimated_expiry_days", 0)` so it may be
absent. -/
structure CandidateItem where
  item_name : Str
  category : Str
  quantity : ℚ
  estimated_expiry_days : Option Int
  deriving DecidableEq

/-- Row appended to `items_to_insert` in save_to_db; `status` is always the
literal `"active"` so it is omitted. -/
structure DbRow where
  item_name : Str
  category : Str
  quantity : ℚ
  purchase_date : Int
  expiry_date : Int
  deriving DecidableEq

/-- Accumulated effect of one save_to_db run: the rows to POST, the ids
PATCHed to consumed, and the duplicate-skip counter. -/
structure SaveResult where
  items_to_insert : List DbRow
  old_items_to_mark_consumed : List Nat
  skipped_duplicates : Nat
  deriving DecidableEq

/-- scanner.find_best_match: fuzzy match of `target_name` against the keys
of the active-items dict via `difflib.get_close_matches(..., n=1, cutoff=threshold)`,
mapping the winning key back to its record. -/
def find_best_match (target_name : Str) (active_items_dict : List (Str × ActiveItem))
    (threshold : ℚ) : Option ActiveItem :=
  match getCloseMatch1 target_name (dictKeys active_items_dict) threshold with
  | some m => dictGet active_items_dict m
  | none => none

/-- The threshold scanner.save_to_db passes at its single find_best_match
call site: the literal `threshold=0.80`. -/
def ingestMatchThreshold : ℚ := 4/5

/-- Expiry date computed in save_to_db:
`receipt_date + timedelta(days=item.get("estimated_expiry_days", 0))`. -/
def rowOf (receipt_date : Int) (c : CandidateItem) : DbRow :=
  { item_name := c.item_name
    category := c.category
    quantity := c.quantity
    purchase_date := receipt_date
    expiry_date := receipt_date + c.estimated_expiry_days.getD 0 }

/-- One iteration of the loop over `parsed_data["items"]` in save_to_db,
with an explicit `threshold` argument (used below to embed both the actual
call and the fixed-threshold characterisation).  Fuzzy-match against the
active dict; on a same-date match `continue` (count a skipped duplicate);
on a strictly older match append the old id to the consumed list and fall
through to the insert; otherwise just insert. -/
def saveStepT (threshold : ℚ) (receipt_date : Int)
    (active_dict : List (Str × ActiveItem)) (acc : SaveResult)
    (c : CandidateItem) : SaveResult :=
  match find_best_match c.item_name active_dict threshold with
  | some old =>
    if old.purchase_date = receipt_date then
      { acc with skipped_duplicates := acc.skipped_duplicates + 1 }
    else if old.purchase_date < receipt_date then
      { acc with
          old_items_to_mark_consumed := acc.old_items_to_mark_consumed ++ [old.id]
          items_to_insert := acc.items_to_insert ++ [rowOf receipt_date c] }
    else
      { acc with items_to_insert := acc.items_to_insert ++ [rowOf receipt_date c] }
  | none =>
      { acc with items_to_insert := acc.items_to_insert ++ [rowOf receipt_date c] }

/-- The loop body scanner.save_to_db actually runs: `saveStepT` at the
hard-coded `threshold=0.80` of its call site. -/
def saveStep (receipt_date : Int) (active_dict : List (Str × ActiveItem))
    (acc : SaveResult) (c : CandidateItem) : SaveResult :=
  saveStepT ingestMatchThreshold receipt_date active_dict acc c

/-- scanner.save_to_db, pure core: build the active dict
(`{item["item_name"]: item for item in active_items}`), then fold the loop
body over the parsed candidates.  Network fetch/POST/PATCH are the
collaborator boundary and are represented by the returned `SaveResult`. -/
def save_to_db (receipt_date : Int) (items : List CandidateItem)
    (active_items : List ActiveItem) : SaveResult :=
  items.foldl
    (saveStep receipt_date (buildDict (fun it => it.item_name) active_items))
    ⟨[], [], 0⟩

/-! ### Spec-side definitions for refinement comparison (scanner claims)

These two definitions follow the SPEC's words, not the source; they exist
only to be compared against the source-derived definitions above. -/

/-- Modelled from the spec: the adaptive threshold selector of §4.2 is
absent from src/ — "a separate function inspects the timestamp of the most
recently inserted active item; if that insert happened within a
configurable recency window (default 15 minutes) of now, a low threshold
(0.55) is selected ... otherwise a high threshold (0.80) is used.  Absence
of a timestamp ... defaults to the high threshold."  Timestamps are in
minutes. -/
def select_adaptive_threshold (last_insert : Option ℚ) (now : ℚ) : ℚ :=
  match last_insert with
  | none => 4/5
  | some t => if now - t ≤ 15 then 11/20 else 4/5

/-- Modelled from the spec: the Name Normalizer of §4.1 is absent from
src/ — "strips a small fixed set of known plural/inflectional suffixes
(longest-match-first), only when the remainder retains at least 2
characters".  The suffix set is taken from the spec's own example
(תפוחים → תפוח, i.e. the plural suffix ים) together with the standard
feminine plural ות. -/
def normalize_name (s : Str) : Str :=
  if (['י', 'ם'] : Str).isSuffixOf s && decide (2 ≤ s.length - 2) then
    s.take (s.length - 2)
  else if (['ו', 'ת'] : Str).isSuffixOf s && decide (2 ≤ s.length - 2) then
    s.take (s.length - 2)
  else s

/-- A second definition following the spec's words for §4.2's algorithm
("normalize the target and every candidate key; compute a
sequence-similarity ratio between normalized target and each normalized
candidate key; select the single highest-scoring candidate whose score ≥
threshold; map back to the original (un-normalized) record"), to be
compared with the source-derived `find_best_match`. -/
def find_best_match_specNormalized (target_name : Str)
    (active_items_dict : List (Str × ActiveItem)) (threshold : ℚ) : Option ActiveItem :=
  let scored := (dictKeys active_items_dict).filterMap
    (fun k => let r := ratioQ (normalize_name k) (normalize_name target_name)
              if threshold ≤ r then some (r, k) else none)
  match (scored.foldl
    (fun best c =>
      match best with
      | none => some c
      | some b =>
        if b.1 < c.1 ∨ (b.1 = c.1 ∧ lexLt b.2 c.2 = true) then some c else some b)
    none).map (fun p => p.2) with
  | some k => dictGet active_items_dict k
  | none => none

/-! ## Rounding — Python `round(x, 3)` on the rational model

CPython `round` uses round-half-to-even; on `ℚ` that is rounding to the
nearest multiple of 1/1000 with ties to the even multiple. -/

/-- Round-half-to-even to the nearest integer. -/
def roundHalfEven (y : ℚ) : ℤ :=
  if y - (⌊y⌋ : ℚ) < 1/2 then ⌊y⌋
  else if 1/2 < y - (⌊y⌋ : ℚ) then ⌊y⌋ + 1
  else if ⌊y⌋ % 2 = 0 then ⌊y⌋ else ⌊y⌋ + 1

/-- Python `round(x, 3)` in the rational model. -/
def round3 (x : ℚ) : ℚ := ((roundHalfEven (x * 1000) : ℤ) : ℚ) / 1000

/-! ## chef_agent.py / api_server.py — consumption reconciler -/

/-- Fridge row in the inventory snapshot held by a session
(chef_agent.get_all_active_items selects `id,item_name,category,quantity,expiry_date`;
only the fields the consumption loop reads are kept). -/
structure FridgeItem where
  id : Nat
  item_name : Str
  quantity : ℚ
  deriving DecidableEq

/-- A `used_fridge_items` entry from the LLM recipe; both fields are read
with `.get(..., default)` so `quantity_used` may be absent. -/
structure UsedItem where
  item_name : Str
  quantity_used : Option ℚ
  deriving DecidableEq

/-- One `_patch_fridge_item` call recorded as data: the body is either
`{"status": "consumed", "quantity": 0}` (`consumed := true`) or
`{"quantity": r}` (`consumed := false`). -/
structure Patch where
  id : Nat
  newQuantity : ℚ
  consumed : Bool
  deriving DecidableEq

/-- ASCII whitespace test for Python `.strip()` on the inputs at hand. -/
def isSpaceChar (c : Char) : Bool :=
  c = ' ' || c = '\t' || c = '\n' || c = '\r'

/-- Python `s.strip()`. -/
def stripStr (s : Str) : Str :=
  ((s.dropWhile isSpaceChar).reverse.dropWhile isSpaceChar).reverse

/-- Exact-then-fuzzy lookup of a used-item name in the snapshot dict:
`fridge_by_name.get(name)` first, then `difflib.get_close_matches(name, keys,
n=1, cutoff=0.70)`.  This is api_server._resolve_fridge_item; the identical
logic is inlined in chef_agent.consume_recipe_items. -/
def resolveFridgeItem (name : Str) (fridge_by_name : List (Str × FridgeItem)) :
    Option FridgeItem :=
  match dictGet fridge_by_name name with
  | some it => some it
  | none =>
    match getCloseMatch1 name (dictKeys fridge_by_name) (7/10) with
    | some k => dictGet fridge_by_name k
    | none => none

/-- Effects of chef_agent.consume_recipe_items over one run: the PATCH
bodies issued and the names POSTed to the smart shopping list, in order. -/
structure ConsumeResult where
  patches : List Patch
  shopping : List Str
  deriving DecidableEq

/-- One iteration of the loop in chef_agent.consume_recipe_items:
strip the name, clamp `quantity_used` with `max(1.0, ...)`, resolve
exact-then-fuzzy, compute `remaining = round(current - used, 3)`, then
either fully consume (patch consumed/0 and add a shopping-list entry for
the row's name) or patch the remaining quantity. -/
def consumeStep (fridge_by_name : List (Str × FridgeItem)) (acc : ConsumeResult)
    (used : UsedItem) : ConsumeResult :=
  let name := stripStr used.item_name
  let qty_used := max 1 (used.quantity_used.getD 1)
  match resolveFridgeItem name fridge_by_name with
  | none => acc
  | some db_item =>
    let remaining_qty := round3 (db_item.quantity - qty_used)
    if remaining_qty ≤ 0 then
      { patches := acc.patches ++ [⟨db_item.id, 0, true⟩]
        shopping := acc.shopping ++ [db_item.item_name] }
    else
      { patches := acc.patches ++ [⟨db_item.id, remaining_qty, false⟩]
        shopping := acc.shopping }

/-- chef_agent.consume_recipe_items, pure core: build
`fridge_by_name = {item["item_name"]: item for item in fridge_items}` and
fold the loop body over `used_items`. -/
def consume_recipe_items (used_items : List UsedItem)
    (fridge_items : List FridgeItem) : ConsumeResult :=
  used_items.foldl
    (consumeStep (buildDict (fun it => it.item_name) fridge_items))
    ⟨[], []⟩

/-- One element of api_server.confirm_recipe's `deducted_items` response. -/
structure DeductedItem where
  item_name : Str
  quantity_before : ℚ
  quantity_deducted : ℚ
  quantity_after : ℚ
  fully_consumed : Bool
  deriving DecidableEq

/-- Effects of api_server.confirm_recipe's deduction loop: the PATCH
bodies, the shopping-list additions, and the structured deduction report. -/
structure ConfirmOut where
  patches : List Patch
  shopping : List Str
  deducted : List DeductedItem
  deriving DecidableEq

/-- One iteration of the loop in api_server.confirm_recipe: same
computation as `consumeStep` plus the `DeductedItem` bookkeeping. -/
def confirmStep (fridge_by_name : List (Str × FridgeItem)) (acc : ConfirmOut)
    (used : UsedItem) : ConfirmOut :=
  let name := stripStr used.item_name
  let qty_used := max 1 (used.quantity_used.getD 1)
  match resolveFridgeItem name fridge_by_name with
  | none => acc
  | some db_item =>
    let current_qty := db_item.quantity
    let remaining_qty := round3 (current_qty - qty_used)
    if remaining_qty ≤ 0 then
      { patches := acc.patches ++ [⟨db_item.id, 0, true⟩]
        shopping := acc.shopping ++ [db_item.item_name]
        deducted := acc.deducted ++
          [⟨db_item.item_name, current_qty, qty_used, 0, true⟩] }
    else
      { patches := acc.patches ++ [⟨db_item.id, remaining_qty, false⟩]
        shopping := acc.shopping
        deducted := acc.deducted ++
          [⟨db_item.item_name, current_qty, qty_used, remaining_qty, false⟩] }

/-- api_server.confirm_recipe deduction loop, pure core: the snapshot
`active_items` captured at /generate_recipe time is turned into
`fridge_by_name` once, then the loop folds over `used_fridge_items`. -/
def confirm_recipe_deduct (used_items : List UsedItem)
    (active_items : List FridgeItem) : ConfirmOut :=
  used_items.foldl
    (confirmStep (buildDict (fun it => it.item_name) active_items))
    ⟨[], [], []⟩

/-- Per-item patch effect as a function of the snapshot dict and the used
item alone (no accumulator): used to state that a batch's deductions are
computed independently from the snapshot. -/
def stepPatches (fridge_by_name : List (Str × FridgeItem)) (used : UsedItem) :
    List Patch :=
  let qty_used := max 1 (used.quantity_used.getD 1)
  match resolveFridgeItem (stripStr used.item_name) fridge_by_name with
  | none => []
  | some db_item =>
    let remaining_qty := round3 (db_item.quantity - qty_used)
    if remaining_qty ≤ 0 then [⟨db_item.id, 0, true⟩]
    else [⟨db_item.id, remaining_qty, false⟩]

/-- Per-item shopping-list effect as a function of the snapshot dict and
the used item alone. -/
def stepShopping (fridge_by_name : List (Str × FridgeItem)) (used : UsedItem) :
    List Str :=
  let qty_used := max 1 (used.quantity_used.getD 1)
  match resolveFridgeItem (stripStr used.item_name) fridge_by_name with
  | none => []
  | some db_item =>
    if round3 (db_item.quantity - qty_used) ≤ 0 then [db_item.item_name] else []

/-- Per-item deduction-report effect as a function of the snapshot dict and
the used item alone. -/
def stepDeducted (fridge_by_name : List (Str × FridgeItem)) (used : UsedItem) :
    List DeductedItem :=
  let qty_used := max 1 (used.quantity_used.getD 1)
  match resolveFridgeItem (stripStr used.item_name) fridge_by_name with
  | none => []
  | some db_item =>
    let remaining_qty := round3 (db_item.quantity - qty_used)
    if remaining_qty ≤ 0 then
      [⟨db_item.item_name, db_item.quantity, qty_used, 0, true⟩]
    else
      [⟨db_item.item_name, db_item.quantity, qty_used, remaining_qty, false⟩]

/-- Applying one recorded PATCH to a store of rows (the data-store's
row-update semantics: update by id). -/
def applyPatch (store : List FridgeItem) (p : Patch) : List FridgeItem :=
  store.map (fun it => if it.id == p.id then { it with quantity := p.newQuantity } else it)

/-- Applying a list of PATCHes in order: a later patch to the same row
overwrites an earlier one. -/
def applyPatches (store : List FridgeItem) (ps : List Patch) : List FridgeItem :=
  ps.foldl applyPatch store

/-! ## chef_agent.py — intent classifier -/

/-- The three intents of chef_agent._classify_user_intent. -/
inductive Intent where
  | confirm
  | cancel
  | revise
  deriving DecidableEq

/-- chef_agent._AFFIRM_KEYWORDS. -/
def affirmKeywords : List Str :=
  [("כן").data, ("יאללה").data, ("סבבה").data, ("אני מכין").data,
   ("מעולה").data, ("מצוין").data, ("אחלה").data, ("בסדר").data,
   ("הולך").data, ("קדימה").data, ("נעשה").data, ("יאה").data,
   ("טוב").data, ("תודה").data, ("ok").data, ("sure").data,
   ("yes").data, ("y").data]

/-- chef_agent._CHANGE_KEYWORDS. -/
def changeKeywords : List Str :=
  [("לא").data, ("אבל").data, ("לשנות").data, ("בלי").data,
   ("שנה").data, ("פחות").data, ("יותר").data, ("במקום").data,
   ("אחרת").data, ("רק").data]

/-- chef_agent._CANCEL_PHRASES. -/
def cancelPhrases : List Str :=
  [("לא צריך").data, ("לא תודה").data, ("לא, תודה").data, ("תודה רבה").data,
   ("ביי").data, ("bye").data, ("cancel").data, ("exit").data, ("quit").data]

/-- chef_agent._CANCEL_EXACT. -/
def cancelExact : List Str :=
  [("לא").data, ("no").data, ("n").data, ("0").data, ("ביי").data, ("bye").data]

/-- Python `answer.strip().lower()` (Char.toLower agrees with str.lower on
the ASCII keywords; Hebrew has no case). -/
def normalizeAnswer (answer : Str) : Str :=
  (stripStr answer).map Char.toLower

/-- Step-1 test of the classifier: `normalized in _CANCEL_EXACT`. -/
def isCancelExact (normalized : Str) : Bool :=
  cancelExact.any (fun t => normalized == t)

/-- Step-2 test of the classifier: any cancel phrase is a substring. -/
def isCancelPhrase (normalized : Str) : Bool :=
  cancelPhrases.any (fun p => strContains normalized p)

/-- Step-3 affirmative test: any affirmative keyword is a substring. -/
def hasAffirm (normalized : Str) : Bool :=
  affirmKeywords.any (fun kw => strContains normalized kw)

/-- Step-3 change-keyword veto: any change keyword is a substring. -/
def hasChange (normalized : Str) : Bool :=
  changeKeywords.any (fun kw => strContains normalized kw)

/-- chef_agent._classify_user_intent: ordered short-circuiting tiers —
exact cancel, cancel phrase, affirmative-without-change, default revise. -/
def classify_user_intent (answer : Str) : Intent :=
  let normalized := normalizeAnswer answer
  if isCancelExact normalized then Intent.cancel
  else if isCancelPhrase normalized then Intent.cancel
  else if hasAffirm normalized && !hasChange normalized then Intent.confirm
  else Intent.revise

/-! ## Session machines — CLI loop (chef_agent.run_chef_agent) and
HTTP session store (api_server) -/

/-- chef_agent.MAX_REVISIONS. -/
def MAX_REVISIONS : Nat := 5

/-- Terminal outcome of the CLI conversation loop. -/
inductive CliOutcome where
  | confirmed
  | cancelled
  | capReached
  | inputExhausted
  deriving DecidableEq

/-- Control skeleton of the refinement loop in chef_agent.run_chef_agent:
classify each user answer; `confirm` and `cancel` return immediately;
`revise` increments the counter and terminates once it exceeds
MAX_REVISIONS.  LLM calls are abstracted as always returning well-formed
drafts (the `_raw_fallback` path forces `revise` without consulting the
classifier and does not touch the counter logic). -/
def cliLoop : Nat → List Str → CliOutcome
  | _, [] => CliOutcome.inputExhausted
  | revisions, answer :: rest =>
    match classify_user_intent answer with
    | Intent.confirm => CliOutcome.confirmed
    | Intent.cancel => CliOutcome.cancelled
    | Intent.revise =>
      if MAX_REVISIONS < revisions + 1 then CliOutcome.capReached
      else cliLoop (revisions + 1) rest

/-- chef_agent.run_chef_agent conversation control, starting with a zero
revision counter. -/
def run_chef_agent (answers : List Str) : CliOutcome :=
  cliLoop 0 answers

/-- One api_server session-store entry:
`{chat, active_items, recipe, created_at}` — note there is no revision
counter field.  The chat handle and recipe payload are abstracted to
tokens (`Nat`). -/
structure ApiSession where
  chat : Nat
  active_items : List FridgeItem
  recipe : Nat
  created_at : Int
  deriving DecidableEq

/-- Outcome of one POST /revise_recipe call. -/
inductive ApiResult where
  | ok (recipe : Nat)
  | errNoSession
  | errBadDraft
  deriving DecidableEq

/-- api_server.revise_recipe, pure core: 404 without a session; 502 when
the LLM draft is malformed (session kept); otherwise store the revised
recipe back into the session and return it.  `revised = none` stands for a
`_raw_fallback` parse. -/
def revise_recipe (session : Option ApiSession) (revised : Option Nat) :
    Option ApiSession × ApiResult :=
  match session with
  | none => (none, ApiResult.errNoSession)
  | some s =>
    match revised with
    | none => (some s, ApiResult.errBadDraft)
    | some r => (some { s with recipe := r }, ApiResult.ok r)

/-- Iterated successful revisions through POST /revise_recipe. -/
def reviseApiN (session : Option ApiSession) (drafts : List Nat) :
    Option ApiSession :=
  drafts.foldl (fun st r => (revise_recipe st (some r)).1) session

/-! ## Concrete fixtures used by the witnesses and counterexamples -/

/-- Hebrew for apple, the active name in the spec's ingestion example. -/
def tapuachName : Str := ("תפוח").data

/-- Hebrew for apples, the candidate name in the spec's ingestion example. -/
def tapuchimName : Str := ("תפוחים").data

/-- Active apple row of the spec example (`purchase_date` 2024-01-01,
modelled as day 1). -/
def appleItem : ActiveItem := ⟨1, tapuachName, 1⟩

/-- Active dict holding only the apple row. -/
def appleDict : List (Str × ActiveItem) := [(tapuachName, appleItem)]

/-- Candidate apples of the spec example: quantity 3, shelf life 10 days. -/
def appleCand : CandidateItem := ⟨tapuchimName, ("פירות וירקות").data, 3, some 10⟩

/-- A candidate whose name equals the active apple name exactly. -/
def appleCandDup : CandidateItem := ⟨tapuachName, ("פירות וירקות").data, 3, some 10⟩

/-- Hebrew for carrot. -/
def gezerName : Str := ("גזר").data

/-- Hebrew for carrots (plural of carrot). -/
def gezerPluralName : Str := ("גזרים").data

/-- Active carrot row. -/
def gezerItem : ActiveItem := ⟨4, gezerName, 1⟩

/-- Active dict holding only the carrot row. -/
def gezerDict : List (Str × ActiveItem) := [(gezerName, gezerItem)]

/-- Hebrew for tomato (singular). -/
def tomatoName : Str := ("עגבניה").data

/-- Hebrew for tomatoes (plural). -/
def tomatoesName : Str := ("עגבניות").data

/-- Active tomatoes row purchased on day 100 (the receipt's own date). -/
def tomatoItem : ActiveItem := ⟨2, tomatoesName, 100⟩

/-- Active dict holding only the tomatoes row. -/
def tomatoDict : List (Str × ActiveItem) := [(tomatoesName, tomatoItem)]

/-- Candidate tomato recognised from a re-scan of the day-100 receipt. -/
def tomatoCand : CandidateItem := ⟨tomatoName, ("פירות וירקות").data, 4, some 7⟩

/-- A non-food candidate (a bag) with no estimated shelf life at all. -/
def bagCand : CandidateItem := ⟨("שקית").data, ("אחר").data, 1, none⟩

/-- Hebrew for chicken, the name in the spec's consumption example. -/
def chickenName : Str := ("עוף").data

/-- Snapshot chicken row with quantity 0.2, as in the spec example. -/
def chickenItem : FridgeItem := ⟨7, chickenName, 1/5⟩

/-- Snapshot dict holding only the chicken row. -/
def chickenDict : List (Str × FridgeItem) :=
  buildDict (fun it => it.item_name) [chickenItem]

/-- Used item of the spec example: chicken, `quantity_used` 0.3. -/
def chickenUsed : UsedItem := ⟨chickenName, some (3/10)⟩

/-- Hebrew for milk. -/
def milkName : Str := ("חלב").data

/-- Snapshot milk row with quantity 1.4. -/
def milkItem : FridgeItem := ⟨3, milkName, 7/5⟩

/-- Used item deducting 1.3996 from the 1.4 of milk: strictly less than the
current quantity, yet `round(1.4 - 1.3996, 3) = 0`. -/
def milkUsed : UsedItem := ⟨milkName, some (3499/2500)⟩

/-- Hebrew for rice. -/
def riceName : Str := ("אורז").data

/-- Snapshot rice row with quantity 5. -/
def riceItem : FridgeItem := ⟨5, riceName, 5⟩

/-- Snapshot dict holding only the rice row. -/
def riceDict : List (Str × FridgeItem) :=
  buildDict (fun it => it.item_name) [riceItem]

/-- Used item deducting 2 from the 5 of rice (a proper partial deduction). -/
def riceUsed : UsedItem := ⟨riceName, some 2⟩

/-- Hebrew for eggs. -/
def eggsName : Str := ("ביצים").data

/-- Snapshot eggs row with quantity 10. -/
def eggsItem : FridgeItem := ⟨9, eggsName, 10⟩

/-- Used item deducting 4 eggs; listed twice in the C10 batch. -/
def eggsUsed : UsedItem := ⟨eggsName, some 4⟩

/-- A pure change request ("without meat"): classifies as revise. -/
def reviseAnswer : Str := ("בלי בשר").data

/-- A bare affirmative ("yes"): classifies as confirm. -/
def yesAnswer : Str := ("כן").data

/-- An input containing both an affirmative keyword (תודה) and a change
keyword (לא) that is also a cancellation phrase. -/
def loTodaAnswer : Str := ("לא תודה").data

/-- An input containing both an affirmative keyword (כן) and a change
keyword (אבל) and no cancellation signal. -/
def kenAvalAnswer : Str := ("כן אבל").data

/-! ## Helper lemmas -/

/-- Round-half-to-even of a non-positive rational is non-positive. -/
theorem roundHalfEven_nonpos {y : ℚ} (hy : y ≤ 0) : roundHalfEven y ≤ 0 := by
  have hf : ⌊y⌋ ≤ 0 := by
    have h := Int.floor_le_floor (α := ℚ) hy
    simpa using h
  unfold roundHalfEven
  by_cases h1 : y - (⌊y⌋ : ℚ) < 1/2
  · rw [if_pos h1]
    exact hf
  · rw [if_neg h1]
    have hne : ⌊y⌋ ≠ 0 := by
      intro h0
      apply h1
      rw [h0]
      push_cast
      linarith
    have hf1 : ⌊y⌋ + 1 ≤ 0 := by omega
    by_cases h2 : (1 : ℚ)/2 < y - (⌊y⌋ : ℚ)
    · rw [if_pos h2]
      exact hf1
    · rw [if_neg h2]
      by_cases h3 : ⌊y⌋ % 2 = 0
      · rw [if_pos h3]
        exact hf
      · rw [if_neg h3]
        exact hf1

/-- Python `round(x, 3)` of a non-positive value is non-positive: a full
deduction can never round back up to a positive remainder. -/
theorem round3_nonpos {x : ℚ} (hx : x ≤ 0) : round3 x ≤ 0 := by
  have h : roundHalfEven (x * 1000) ≤ 0 := roundHalfEven_nonpos (by nlinarith)
  have hc : ((roundHalfEven (x * 1000) : ℤ) : ℚ) ≤ 0 := by exact_mod_cast h
  unfold round3
  exact div_nonpos_of_nonpos_of_nonneg hc (by norm_num)

/-- The loop body of consume_recipe_items only appends its per-item effect,
computed from the snapshot dict alone, to the accumulator. -/
theorem consumeStep_append (d : List (Str × FridgeItem)) (acc : ConsumeResult)
    (u : UsedItem) :
    consumeStep d acc u =
      ⟨acc.patches ++ stepPatches d u, acc.shopping ++ stepShopping d u⟩ := by
  unfold consumeStep stepPatches stepShopping
  cases h : resolveFridgeItem (stripStr u.item_name) d with
  | none => simp [h]
  | some db =>
    by_cases hr : round3 (db.quantity - max 1 (u.quantity_used.getD 1)) ≤ 0 <;>
      simp [h, hr]

/-- The loop body of confirm_recipe only appends its per-item effect,
computed from the snapshot dict alone, to the accumulator. -/
theorem confirmStep_append (d : List (Str × FridgeItem)) (acc : ConfirmOut)
    (u : UsedItem) :
    confirmStep d acc u =
      ⟨acc.patches ++ stepPatches d u, acc.shopping ++ stepShopping d u,
        acc.deducted ++ stepDeducted d u⟩ := by
  unfold confirmStep stepPatches stepShopping stepDeducted
  cases h : resolveFridgeItem (stripStr u.item_name) d with
  | none => simp [h]
  | some db =>
    by_cases hr : round3 (db.quantity - max 1 (u.quantity_used.getD 1)) ≤ 0 <;>
      simp [h, hr]

/-- CLI loop: a run of revise-classified answers short enough to stay at or
under the cap, followed by a confirm-classified answer, confirms. -/
theorem cliLoop_confirm (pre : List Str) :
    ∀ (rev : Nat) (ans : Str),
      (∀ a ∈ pre, classify_user_intent a = Intent.revise) →
      rev + pre.length ≤ MAX_REVISIONS →
      classify_user_intent ans = Intent.confirm →
      cliLoop rev (pre ++ [ans]) = CliOutcome.confirmed := by
  induction pre with
  | nil =>
    intro rev ans _ _ hc
    simp [cliLoop, hc]
  | cons a t ih =>
    intro rev ans hall hlen hc
    have ha : classify_user_intent a = Intent.revise := hall a (by simp)
    have hbound : ¬ MAX_REVISIONS < rev + 1 := by
      simp only [List.length_cons] at hlen
      omega
    simp only [List.cons_append, cliLoop, ha, hbound, if_false]
    exact ih (rev + 1) ans (fun x hx => hall x (by simp [hx]))
      (by simp only [List.length_cons] at hlen; omega) hc

/-- CLI loop: once the revision counter has consumed the whole cap, one
more revise-classified answer terminates the conversation. -/
theorem cliLoop_cap (pre : List Str) :
    ∀ (rev : Nat) (ans : Str) (rest : List Str),
      (∀ a ∈ pre, classify_user_intent a = Intent.revise) →
      rev + pre.length = MAX_REVISIONS →
      classify_user_intent ans = Intent.revise →
      cliLoop rev (pre ++ ans :: rest) = CliOutcome.capReached := by
  induction pre with
  | nil =>
    intro rev ans rest _ hlen hc
    have hrev : rev = MAX_REVISIONS := by simpa using hlen
    simp [cliLoop, hc, hrev]
  | cons a t ih =>
    intro rev ans rest hall hlen hc
    have ha : classify_user_intent a = Intent.revise := hall a (by simp)
    have hbound : ¬ MAX_REVISIONS < rev + 1 := by
      simp only [List.length_cons] at hlen
      omega
    simp only [List.cons_append, cliLoop, ha, hbound, if_false]
    exact ih (rev + 1) ans rest (fun x hx => hall x (by simp [hx]))
      (by simp only [List.length_cons] at hlen; omega) hc

/-! ## Claim C1 — adaptive threshold selection -/

/-- Claim C1 is false on the code: the claim says the ingestion fuzzy-match
threshold is chosen adaptively from the most recent insert's timestamp (0.55
within a 15-minute window, 0.80 otherwise), but scanner.save_to_db passes
the literal `threshold=0.80` unconditionally.  Concretely: with the most
recent insert 1 minute ago the spec selector picks 0.55, the code still
matches at 0.80, and the two thresholds give different behaviour — the
candidate עגבניה would fuzzy-match the active עגבניות at 0.55 (ratio 10/13)
and be skipped as a same-date duplicate, yet the code finds no match at
0.80 and inserts it. -/
theorem C1_counterexample :
    select_adaptive_threshold (some 99) 100 = 11/20 ∧
    ingestMatchThreshold = 4/5 ∧
    select_adaptive_threshold (some 99) 100 ≠ ingestMatchThreshold ∧
    find_best_match tomatoName tomatoDict ingestMatchThreshold = none ∧
    find_best_match tomatoName tomatoDict (select_adaptive_threshold (some 99) 100) =
      some tomatoItem ∧
    save_to_db 100 [tomatoCand] [tomatoItem] = ⟨[rowOf 100 tomatoCand], [], 0⟩ := by
  refine ⟨by norm_num [select_adaptive_threshold], rfl, by decide, by decide, by decide, by decide⟩

/-- Claim C1, amended: every invocation of the ingestion fuzzy match uses
the fixed threshold 0.80; there is no recency-adaptive selection (only the
claim's "otherwise / no timestamp" arm describes the code, and it holds
unconditionally). -/
theorem C1_amended_theorem :
    ingestMatchThreshold = 4/5 ∧
    ∀ (receipt_date : Int) (items : List CandidateItem) (active : List ActiveItem),
      save_to_db receipt_date items active =
        items.foldl
          (saveStepT (4/5) receipt_date (buildDict (fun it => it.item_name) active))
          ⟨[], [], 0⟩ :=
  ⟨rfl, fun _ _ _ => rfl⟩

/-! ## Claim C2 — normalization inside find_best_match -/

/-- Claim C2 is false on the code: scanner.find_best_match compares raw
names, not normalized ones.  The target גזרים and the sole candidate key
גזר have the same normalized form (both reduce to גזר), so the claimed
normalize-then-compare algorithm matches them at any threshold, but the
code's raw comparison scores them 3/4 < 0.80 and returns no match. -/
theorem C2_counterexample :
    find_best_match gezerPluralName gezerDict ingestMatchThreshold = none ∧
    find_best_match_specNormalized gezerPluralName gezerDict ingestMatchThreshold =
      some gezerItem ∧
    normalize_name gezerPluralName = normalize_name gezerName ∧
    ratioQ gezerName gezerPluralName = 3/4 := by
  refine ⟨by decide, by decide, by decide, by decide⟩

/-- Claim C2, amended: find_best_match compares raw (un-normalized) names —
the similarity ratio is computed directly between the target and each
candidate key with no suffix stripping — and the claim's example still
holds for a different reason: the candidate תפוחים matches the active
תפוח at the high threshold because the raw character-level ratio is
exactly 0.8, which meets the 0.80 cutoff. -/
theorem C2_amended_theorem :
    find_best_match tapuchimName appleDict ingestMatchThreshold = some appleItem ∧
    ratioQ tapuachName tapuchimName = 4/5 ∧
    ingestMatchThreshold ≤ ratioQ tapuachName tapuchimName := by
  refine ⟨by decide, by decide, by decide⟩

/-! ## Claim C3 — shelf-life guard in the ingestion reconciler -/

/-- Claim C3 is false on the code: save_to_db has no shelf-life guard at
all.  A candidate with no `estimated_expiry_days` (the bag) is not dropped
or reported — it is inserted with the default `0`, so its expiry_date
equals its purchase_date. -/
theorem C3_counterexample :
    bagCand.estimated_expiry_days = none ∧
    save_to_db 100 [bagCand] [] =
      ⟨[⟨bagCand.item_name, bagCand.category, bagCand.quantity, 100, 100⟩], [], 0⟩ ∧
    (save_to_db 100 [bagCand] []).items_to_insert ≠ [] := by
  refine ⟨rfl, by decide, by decide⟩

/-- Claim C3, amended: save_to_db never drops a candidate for a zero,
negative, or missing estimated shelf life.  Every candidate that is not
skipped as a same-date duplicate — whether it has no fuzzy match, an
older-dated match (restock), or a newer-dated match, and whatever its
shelf life — is added to the insert list; and whenever the shelf life is
non-positive or missing (defaulted to 0) the inserted row's expiry_date
is at or before its purchase_date. -/
theorem C3_amended_theorem (receipt_date : Int)
    (active_dict : List (Str × ActiveItem)) (acc : SaveResult)
    (c : CandidateItem)
    (hnotdup : (find_best_match c.item_name active_dict ingestMatchThreshold).all
        (fun old => old.purchase_date != receipt_date) = true) :
    (saveStep receipt_date active_dict acc c).items_to_insert =
      acc.items_to_insert ++ [rowOf receipt_date c] ∧
    (c.estimated_expiry_days.getD 0 ≤ 0 →
      (rowOf receipt_date c).expiry_date ≤ receipt_date) := by
  constructor
  · unfold saveStep saveStepT
    cases hm : find_best_match c.item_name active_dict ingestMatchThreshold with
    | none => rfl
    | some old =>
      rw [hm] at hnotdup
      simp only [Option.all_some, bne_iff_ne] at hnotdup
      dsimp only
      rw [if_neg hnotdup]
      by_cases hlt : old.purchase_date < receipt_date
      · rw [if_pos hlt]
      · rw [if_neg hlt]
  · intro hshelf
    show receipt_date + c.estimated_expiry_days.getD 0 ≤ receipt_date
    omega

/-- Witness for C3's amended theorem at two inputs covering distinct
branches: the shelf-less bag candidate against an empty active inventory
(no match, missing shelf life — inserted, expiry at the purchase date) and
the apple candidate against an older-dated active match (restock with a
positive shelf life — still inserted). -/
theorem C3_witness :
    (saveStep 100 [] ⟨[], [], 0⟩ bagCand).items_to_insert = [rowOf 100 bagCand] ∧
    (rowOf 100 bagCand).expiry_date ≤ 100 ∧
    (saveStep 5 appleDict ⟨[], [], 0⟩ appleCand).items_to_insert = [rowOf 5 appleCand] := by
  refine ⟨?_, ?_, ?_⟩
  · exact (C3_amended_theorem 100 [] ⟨[], [], 0⟩ bagCand (by decide)).1
  · exact (C3_amended_theorem 100 [] ⟨[], [], 0⟩ bagCand (by decide)).2 (by decide)
  · exact (C3_amended_theorem 5 appleDict ⟨[], [], 0⟩ appleCand (by decide)).1

/-! ## Claim C4 — within-batch deduplication of identically named candidates -/

/-- Claim C4 is false on the code: two candidates with the same name (hence
the same normalized form) and the same observed date both produce inserts
when nothing in the pre-batch active inventory matches them — the insert
list is never consulted during matching, so the batch is not deduplicated
against itself. -/
theorem C4_counterexample :
    save_to_db 5 [appleCandDup, appleCandDup] [] =
      ⟨[rowOf 5 appleCandDup, rowOf 5 appleCandDup], [], 0⟩ ∧
    (save_to_db 5 [appleCandDup, appleCandDup] []).items_to_insert.length = 2 := by
  refine ⟨by decide, by decide⟩

/-- Claim C4, amended: candidates in one batch are matched independently
against the pre-batch active inventory only.  When a candidate matches an
active item carrying the same date as the receipt it is skipped (no insert,
no retirement) — so two such candidates yield zero inserts; but when a
candidate has no active match it is always inserted — so two identically
named unmatched candidates both produce inserts. -/
theorem C4_amended_theorem :
    (∀ (receipt_date : Int) (active_dict : List (Str × ActiveItem))
       (acc : SaveResult) (c : CandidateItem) (old : ActiveItem),
       find_best_match c.item_name active_dict ingestMatchThreshold = some old →
       old.purchase_date = receipt_date →
       saveStep receipt_date active_dict acc c =
         { acc with skipped_duplicates := acc.skipped_duplicates + 1 }) ∧
    (∀ (receipt_date : Int) (active_dict : List (Str × ActiveItem))
       (acc : SaveResult) (c : CandidateItem),
       find_best_match c.item_name active_dict ingestMatchThreshold = none →
       saveStep receipt_date active_dict acc c =
         { acc with items_to_insert := acc.items_to_insert ++ [rowOf receipt_date c] }) := by
  constructor
  · intro rd d acc c old hm hdate
    unfold saveStep saveStepT
    rw [hm]
    dsimp only
    rw [if_pos hdate]
  · intro rd d acc c hm
    unfold saveStep saveStepT
    rw [hm]

/-- Witness for C4's amended theorem: a same-date match is skipped (the
apple candidate re-scanned on the active row's own purchase date), and an
unmatched candidate is inserted (empty active inventory). -/
theorem C4_witness :
    saveStep 1 appleDict ⟨[], [], 0⟩ appleCandDup = ⟨[], [], 1⟩ ∧
    saveStep 5 [] ⟨[], [], 0⟩ appleCandDup = ⟨[rowOf 5 appleCandDup], [], 0⟩ :=
  ⟨C4_amended_theorem.1 1 appleDict ⟨[], [], 0⟩ appleCandDup appleItem
      (by decide) (by decide),
   C4_amended_theorem.2 5 [] ⟨[], [], 0⟩ appleCandDup (by decide)⟩

/-! ## Claim C5 — restock: retire the older match and insert the new row -/

/-- Claim C5 holds: a candidate whose name fuzzy-matches an active item
with a strictly older purchase_date produces exactly one retirement (the
matched id is appended to the consumed list) and exactly one insert, whose
expiry_date is the observed date plus the estimated shelf life in days. -/
theorem C5_theorem (receipt_date : Int)
    (active_dict : List (Str × ActiveItem)) (acc : SaveResult)
    (c : CandidateItem) (old : ActiveItem)
    (hm : find_best_match c.item_name active_dict ingestMatchThreshold = some old)
    (holder : old.purchase_date < receipt_date) :
    saveStep receipt_date active_dict acc c =
      { items_to_insert := acc.items_to_insert ++ [rowOf receipt_date c]
        old_items_to_mark_consumed := acc.old_items_to_mark_consumed ++ [old.id]
        skipped_duplicates := acc.skipped_duplicates } ∧
    (rowOf receipt_date c).expiry_date =
      receipt_date + c.estimated_expiry_days.getD 0 := by
  constructor
  · have hne : ¬ old.purchase_date = receipt_date := by omega
    unfold saveStep saveStepT
    rw [hm]
    dsimp only
    rw [if_neg hne, if_pos holder]
  · rfl

/-- Witness for C5 at the spec's own ingestion example: active תפוח
purchased on day 1, candidate תפוחים observed on day 5 with shelf life 10 —
one retirement of id 1, one insert expiring on day 15. -/
theorem C5_witness :
    saveStep 5 appleDict ⟨[], [], 0⟩ appleCand =
      { items_to_insert := [rowOf 5 appleCand]
        old_items_to_mark_consumed := [1]
        skipped_duplicates := 0 } ∧
    (rowOf 5 appleCand).expiry_date = 15 :=
  C5_theorem 5 appleDict ⟨[], [], 0⟩ appleCand appleItem (by decide) (by decide)

/-! ## Claim C6 — full consumption: consumed/0 plus one shopping entry -/

/-- Claim C6 holds, in both consumption reconcilers: a used item that
resolves to a row whose quantity is at most the clamped `quantity_used`
yields exactly one consumed/quantity-0 patch and exactly one shopping-list
entry carrying the row's name (`round(current - used, 3) ≤ 0` because the
difference is non-positive and rounding cannot make it positive). -/
theorem C6_theorem :
    (∀ (d : List (Str × FridgeItem)) (acc : ConsumeResult) (u : UsedItem)
       (db : FridgeItem),
       resolveFridgeItem (stripStr u.item_name) d = some db →
       db.quantity ≤ max 1 (u.quantity_used.getD 1) →
       consumeStep d acc u =
         ⟨acc.patches ++ [⟨db.id, 0, true⟩], acc.shopping ++ [db.item_name]⟩) ∧
    (∀ (d : List (Str × FridgeItem)) (acc : ConfirmOut) (u : UsedItem)
       (db : FridgeItem),
       resolveFridgeItem (stripStr u.item_name) d = some db →
       db.quantity ≤ max 1 (u.quantity_used.getD 1) →
       confirmStep d acc u =
         ⟨acc.patches ++ [⟨db.id, 0, true⟩], acc.shopping ++ [db.item_name],
           acc.deducted ++
             [⟨db.item_name, db.quantity, max 1 (u.quantity_used.getD 1), 0, true⟩]⟩) := by
  constructor
  · intro d acc u db hres hq
    have hr : round3 (db.quantity - max 1 (u.quantity_used.getD 1)) ≤ 0 :=
      round3_nonpos (by linarith)
    unfold consumeStep
    dsimp only
    rw [hres]
    dsimp only
    rw [if_pos hr]
  · intro d acc u db hres hq
    have hr : round3 (db.quantity - max 1 (u.quantity_used.getD 1)) ≤ 0 :=
      round3_nonpos (by linarith)
    unfold confirmStep
    dsimp only
    rw [hres]
    dsimp only
    rw [if_pos hr]

/-- Witness for C6 at the spec's consumption example: used עוף 0.3
(clamped to 1) against the snapshot row of quantity 0.2 — consumed, zeroed,
and exactly one shopping-list entry for עוף, in both reconcilers. -/
theorem C6_witness :
    consumeStep chickenDict ⟨[], []⟩ chickenUsed =
      ⟨[⟨7, 0, true⟩], [chickenName]⟩ ∧
    confirmStep chickenDict ⟨[], [], []⟩ chickenUsed =
      ⟨[⟨7, 0, true⟩], [chickenName],
        [⟨chickenName, mkRat 1 5, 1, 0, true⟩]⟩ := by
  constructor
  · have h := C6_theorem.1 chickenDict ⟨[], []⟩ chickenUsed chickenItem
      (by decide) (by decide)
    simpa using h
  · have h := C6_theorem.2 chickenDict ⟨[], [], []⟩ chickenUsed chickenItem
      (by decide) (by decide)
    simpa using h

/-! ## Claim C7 — partial consumption -/

/-- Claim C7 is false on the code as stated: its precondition is
`quantity_used < current_quantity`, but the code branches on the rounded
remainder.  With the milk row at 1.4 and a used quantity of 1.3996
(strictly smaller), `round(1.4 - 1.3996, 3) = 0 ≤ 0`, so the row is patched
to consumed/0 and a shopping-list entry IS emitted — contradicting "only
the quantity field is patched" and "no shopping-list entry". -/
theorem C7_counterexample :
    max 1 (milkUsed.quantity_used.getD 1) < milkItem.quantity ∧
    consume_recipe_items [milkUsed] [milkItem] =
      ⟨[⟨3, 0, true⟩], [milkName]⟩ ∧
    confirm_recipe_deduct [milkUsed] [milkItem] =
      ⟨[⟨3, 0, true⟩], [milkName],
        [⟨milkName, mkRat 7 5, mkRat 3499 2500, 0, true⟩]⟩ := by
  refine ⟨by decide, by decide, by decide⟩

/-- Claim C7, amended: the partial branch is governed by the rounded
remainder, not by `quantity_used < current_quantity` — whenever
`round(current - used, 3) > 0`, the row's quantity is patched to exactly
that rounded difference (status untouched) and no shopping-list entry is
emitted, in both reconcilers. -/
theorem C7_amended_theorem :
    (∀ (d : List (Str × FridgeItem)) (acc : ConsumeResult) (u : UsedItem)
       (db : FridgeItem),
       resolveFridgeItem (stripStr u.item_name) d = some db →
       0 < round3 (db.quantity - max 1 (u.quantity_used.getD 1)) →
       consumeStep d acc u =
         ⟨acc.patches ++
            [⟨db.id, round3 (db.quantity - max 1 (u.quantity_used.getD 1)), false⟩],
          acc.shopping⟩) ∧
    (∀ (d : List (Str × FridgeItem)) (acc : ConfirmOut) (u : UsedItem)
       (db : FridgeItem),
       resolveFridgeItem (stripStr u.item_name) d = some db →
       0 < round3 (db.quantity - max 1 (u.quantity_used.getD 1)) →
       confirmStep d acc u =
         ⟨acc.patches ++
            [⟨db.id, round3 (db.quantity - max 1 (u.quantity_used.getD 1)), false⟩],
          acc.shopping,
          acc.deducted ++
            [⟨db.item_name, db.quantity, max 1 (u.quantity_used.getD 1),
              round3 (db.quantity - max 1 (u.quantity_used.getD 1)), false⟩]⟩) := by
  constructor
  · intro d acc u db hres hr
    have hr' : ¬ round3 (db.quantity - max 1 (u.quantity_used.getD 1)) ≤ 0 := by
      linarith
    unfold consumeStep
    dsimp only
    rw [hres]
    dsimp only
    rw [if_neg hr']
  · intro d acc u db hres hr
    have hr' : ¬ round3 (db.quantity - max 1 (u.quantity_used.getD 1)) ≤ 0 := by
      linarith
    unfold confirmStep
    dsimp only
    rw [hres]
    dsimp only
    rw [if_neg hr']

/-- Witness for C7's amended theorem: used אורז 2 against the snapshot row
of quantity 5 — the rounded remainder 3 is positive, so only the quantity
is patched and no shopping-list entry is emitted, in both reconcilers. -/
theorem C7_witness :
    consumeStep riceDict ⟨[], []⟩ riceUsed = ⟨[⟨5, 3, false⟩], []⟩ ∧
    confirmStep riceDict ⟨[], [], []⟩ riceUsed =
      ⟨[⟨5, 3, false⟩], [], [⟨riceName, 5, 2, 3, false⟩]⟩ := by
  constructor
  · have h := C7_amended_theorem.1 riceDict ⟨[], []⟩ riceUsed riceItem
      (by decide) (by decide)
    simpa using h
  · have h := C7_amended_theorem.2 riceDict ⟨[], [], []⟩ riceUsed riceItem
      (by decide) (by decide)
    simpa using h

/-! ## Claim C8 — change keywords veto the affirmative path -/

/-- Claim C8 is false on the code as stated: an input containing both an
affirmative and a change keyword is indeed never classified confirm, but it
is not always classified revise — the cancellation tiers run first.
לא תודה contains the affirmative keyword תודה and the change keyword לא,
yet it is a cancellation phrase and classifies as cancel, not revise. -/
theorem C8_counterexample :
    hasAffirm (normalizeAnswer loTodaAnswer) = true ∧
    hasChange (normalizeAnswer loTodaAnswer) = true ∧
    classify_user_intent loTodaAnswer = Intent.cancel ∧
    classify_user_intent loTodaAnswer ≠ Intent.revise := by
  refine ⟨by decide, by decide, by decide, by decide⟩

/-- Claim C8, amended: an input containing both an affirmative and a change
keyword never classifies as confirm (the change-keyword check vetoes the
affirmative path), and it classifies as revise unless one of the earlier
cancellation tiers (exact token or cancellation phrase) claims it first, in
which case it classifies as cancel. -/
theorem C8_amended_theorem (answer : Str)
    (ha : hasAffirm (normalizeAnswer answer) = true)
    (hc : hasChange (normalizeAnswer answer) = true) :
    classify_user_intent answer ≠ Intent.confirm ∧
    (isCancelExact (normalizeAnswer answer) = false →
     isCancelPhrase (normalizeAnswer answer) = false →
     classify_user_intent answer = Intent.revise) := by
  constructor
  · unfold classify_user_intent
    by_cases h1 : isCancelExact (normalizeAnswer answer) <;>
      by_cases h2 : isCancelPhrase (normalizeAnswer answer) <;>
        simp [h1, h2, ha, hc]
  · intro h1 h2
    unfold classify_user_intent
    simp [h1, h2, ha, hc]

/-- Witness for C8's amended theorem at כן אבל (affirmative כן, change אבל,
no cancellation signal): not confirm, and classified revise. -/
theorem C8_witness :
    classify_user_intent kenAvalAnswer ≠ Intent.confirm ∧
    classify_user_intent kenAvalAnswer = Intent.revise :=
  ⟨(C8_amended_theorem kenAvalAnswer (by decide) (by decide)).1,
   (C8_amended_theorem kenAvalAnswer (by decide) (by decide)).2
     (by decide) (by decide)⟩

/-! ## Claim C9 — revision counter and cap -/

/-- Claim C9 is false on the code: only the CLI loop has a revision
counter.  The HTTP /revise_recipe endpoint stores no counter in its session
and never forces a terminal outcome — after six successful revisions the
session is still alive and a seventh revision still succeeds. -/
theorem C9_counterexample :
    reviseApiN (some ⟨0, [], 0, 0⟩) [1, 2, 3, 4, 5, 6] =
      some ⟨0, [], 6, 0⟩ ∧
    (revise_recipe (reviseApiN (some ⟨0, [], 0, 0⟩) [1, 2, 3, 4, 5, 6]) (some 7)).2 =
      ApiResult.ok 7 := by
  refine ⟨by decide, by decide⟩

/-- Claim C9, amended: the CLI loop (run_chef_agent) behaves as claimed —
the counter increments per revise, confirming after at most 5 revisions
still succeeds, and once 5 revisions have been consumed any further
revise-classified input terminates the conversation regardless of content —
but the HTTP /revise_recipe endpoint keeps no revision counter and accepts
every revision of a live session unconditionally. -/
theorem C9_amended_theorem :
    (∀ (pre : List Str) (ans : Str),
       (∀ a ∈ pre, classify_user_intent a = Intent.revise) →
       pre.length ≤ MAX_REVISIONS →
       classify_user_intent ans = Intent.confirm →
       run_chef_agent (pre ++ [ans]) = CliOutcome.confirmed) ∧
    (∀ (pre : List Str) (ans : Str) (rest : List Str),
       (∀ a ∈ pre, classify_user_intent a = Intent.revise) →
       pre.length = MAX_REVISIONS →
       classify_user_intent ans = Intent.revise →
       run_chef_agent (pre ++ ans :: rest) = CliOutcome.capReached) ∧
    (∀ (s : ApiSession) (r : Nat),
       revise_recipe (some s) (some r) =
         (some { s with recipe := r }, ApiResult.ok r)) := by
  refine ⟨?_, ?_, fun _ _ => rfl⟩
  · intro pre ans hall hlen hc
    exact cliLoop_confirm pre 0 ans hall (by simpa using hlen) hc
  · intro pre ans rest hall hlen hc
    exact cliLoop_cap pre 0 ans rest hall (by simpa using hlen) hc

/-- Witness for C9's amended theorem: five revise inputs then כן confirms;
five revise inputs then a sixth revise input hits the cap; one API revision
of a concrete live session succeeds. -/
theorem C9_witness :
    run_chef_agent [reviseAnswer, reviseAnswer, reviseAnswer, reviseAnswer,
      reviseAnswer, yesAnswer] = CliOutcome.confirmed ∧
    run_chef_agent [reviseAnswer, reviseAnswer, reviseAnswer, reviseAnswer,
      reviseAnswer, reviseAnswer] = CliOutcome.capReached ∧
    revise_recipe (some ⟨0, [], 0, 0⟩) (some 1) =
      (some ⟨0, [], 1, 0⟩, ApiResult.ok 1) := by
  refine ⟨?_, ?_, ?_⟩
  · have h := C9_amended_theorem.1
      [reviseAnswer, reviseAnswer, reviseAnswer, reviseAnswer, reviseAnswer]
      yesAnswer (by decide) (by decide) (by decide)
    simpa using h
  · have h := C9_amended_theorem.2.1
      [reviseAnswer, reviseAnswer, reviseAnswer, reviseAnswer, reviseAnswer]
      reviseAnswer [] (by decide) (by decide) (by decide)
    simpa using h
  · exact C9_amended_theorem.2.2 ⟨0, [], 0, 0⟩ 1

/-! ## Claim C10 — snapshot semantics within one confirmation batch -/

/-- Claim C10 holds (implicit claim): within one batch, each used item's
deduction is computed from the snapshot dict alone — the loop body only
appends a per-item effect that is a function of the snapshot and the item,
never of earlier patches — so two used items resolving to the same row are
both deducted from the same original quantity, and replaying the recorded
patches in order leaves the later patch's value (overwrite, not
accumulation).  Concretely: two deductions of 4 eggs from a snapshot row of
10 both record quantity 6, and applying both patches leaves 6, not 2. -/
theorem C10_theorem :
    (∀ (d : List (Str × FridgeItem)) (acc : ConsumeResult) (u : UsedItem),
       consumeStep d acc u =
         ⟨acc.patches ++ stepPatches d u, acc.shopping ++ stepShopping d u⟩) ∧
    (∀ (d : List (Str × FridgeItem)) (acc : ConfirmOut) (u : UsedItem),
       confirmStep d acc u =
         ⟨acc.patches ++ stepPatches d u, acc.shopping ++ stepShopping d u,
           acc.deducted ++ stepDeducted d u⟩) ∧
    consume_recipe_items [eggsUsed, eggsUsed] [eggsItem] =
      ⟨[⟨9, 6, false⟩, ⟨9, 6, false⟩], []⟩ ∧
    (confirm_recipe_deduct [eggsUsed, eggsUsed] [eggsItem]).patches =
      [⟨9, 6, false⟩, ⟨9, 6, false⟩] ∧
    applyPatches [eggsItem]
      (consume_recipe_items [eggsUsed, eggsUsed] [eggsItem]).patches =
      [⟨9, eggsName, 6⟩] := by
  refine ⟨consumeStep_append, confirmStep_append, by decide, by decide, by decide⟩

end SmartFridge
